import Mathlib

/-!
Verification of `open-api-mock-build` (Python).

This file gives a shallow embedding of the pure logic of two modules:

* `src/open_api_mock_build/container_pusher.py`:
  `parse_registry_url` and `build_full_image_name`.
* `src/open_api_mock_build/openapi_validator.py`:
  `validate_openapi_spec`.

Python strings are modelled as `List Char`; the optional `registry`
argument (which callers pass as `None` or a string) is `Option (List Char)`,
and the Python guard `if not registry` covers both `none` and the empty
string.  JSON documents are modelled by the inductive `Json`; Python
`raise ValueError(msg)` is modelled by `Except` with an inductive error
type whose constructors stand for the exact message strings of the source
(reproduced in comments next to each constructor).
-/

namespace OpenApiMockBuild

/-- Character class of the regex fragment d+ (a decimal digit). -/
def isDigitC (c : Char) : Bool := '0' ≤ c && c ≤ '9'

/-- Character class of the regex fragment [a-zA-Z0-9-]. -/
def isAlnumHyphenC (c : Char) : Bool :=
  ('a' ≤ c && c ≤ 'z') || ('A' ≤ c && c ≤ 'Z') || isDigitC c || c = '-'

/-- Does the second list start with the first (Python str.startswith)? -/
def startsWithL : List Char → List Char → Bool
  | [], _ => true
  | _ :: _, [] => false
  | p :: ps, c :: cs => p = c && startsWithL ps cs

/-- Python substring test `p in s`. -/
def hasSubstr (p : List Char) : List Char → Bool
  | [] => startsWithL p []
  | c :: cs => startsWithL p (c :: cs) || hasSubstr p cs

/-- Python str.endswith: the second list ends with the first. -/
def endsWithL (p s : List Char) : Bool := startsWithL p.reverse s.reverse

/-- Python str.split applied with separator "." : cuts the list at every
dot; the empty string splits to one empty segment. -/
def splitOnDot : List Char → List (List Char)
  | [] => [[]]
  | c :: cs =>
    if c = '.' then [] :: splitOnDot cs
    else
      match splitOnDot cs with
      | [] => [[c]]
      | h :: t => (c :: h) :: t

/-- Recognizer for Python `re.match` against the anchored-at-start pattern
`(\x64+)\.dkr\.ecr\.([a-zA-Z0-9-]+)\.amazonaws\.com` of
`container_pusher.parse_registry_url` (line 43).  `re.match` only anchors
at the start, so trailing characters after `.com` are accepted.  Because
both character classes exclude the dot, the regex engine cannot backtrack
inside either group: each group is exactly the maximal run of its class,
and the literal parts must follow it, which is what this function checks. -/
def ecrMatch (s : List Char) : Bool :=
  !(s.takeWhile isDigitC).isEmpty &&
    (match s.dropWhile isDigitC with
     | '.' :: 'd' :: 'k' :: 'r' :: '.' :: 'e' :: 'c' :: 'r' :: '.' :: rest2 =>
       !(rest2.takeWhile isAlnumHyphenC).isEmpty &&
         (match rest2.dropWhile isAlnumHyphenC with
          | '.' :: 'a' :: 'm' :: 'a' :: 'z' :: 'o' :: 'n' :: 'a' :: 'w' :: 's' :: '.' :: 'c' :: 'o' :: 'm' :: _ => true
          | _ => false)
     | _ => false)

/-- The `type` values returned by `parse_registry_url`, one per string
literal in the source (docker_hub, aws_ecr, gcr, gar, acr, generic). -/
inductive RegistryKind where
  | docker_hub
  | aws_ecr
  | gcr
  | gar
  | acr
  | generic
deriving DecidableEq, Repr

/-- The dictionary returned by `parse_registry_url`: keys `type`, `url`,
`hostname` are always present; `account_id` and `region` only in the AWS
ECR branch, modelled with `Option`. -/
structure RegistryInfo where
  kind : RegistryKind
  url : List Char
  hostname : List Char
  account_id : Option (List Char)
  region : Option (List Char)
deriving DecidableEq, Repr

/-- container_pusher.parse_registry_url (lines 33-82).  The argument is
`Option (List Char)` because callers pass `None` or a string; the source
guard `if not registry` is true exactly on `none` and the empty string. -/
def parse_registry_url (registry : Option (List Char)) : RegistryInfo :=
  match registry with
  | none =>
    { kind := .docker_hub, url := "docker.io".toList, hostname := "docker.io".toList
      account_id := none, region := none }
  | some r =>
    if r.isEmpty then
      { kind := .docker_hub, url := "docker.io".toList, hostname := "docker.io".toList
        account_id := none, region := none }
    else if ecrMatch r then
      { kind := .aws_ecr, url := r, hostname := r
        account_id := some ((splitOnDot r).getD 0 [])
        region := some ((splitOnDot r).getD 3 []) }
    else if startsWithL "gcr.io".toList r || startsWithL "us.gcr.io".toList r
        || startsWithL "eu.gcr.io".toList r || startsWithL "asia.gcr.io".toList r then
      { kind := .gcr, url := r, hostname := r, account_id := none, region := none }
    else if hasSubstr ".pkg.dev".toList r then
      { kind := .gar, url := r, hostname := r, account_id := none, region := none }
    else if endsWithL ".azurecr.io".toList r then
      { kind := .acr, url := r, hostname := r, account_id := none, region := none }
    else
      { kind := .generic, url := r, hostname := r, account_id := none, region := none }

/-- container_pusher.build_full_image_name (lines 85-100).  The guard on
line 91 reads `if image_name contains a slash and the segment before the
first slash contains a dot or a colon, return image_name unchanged`;
`image_name.split(slash)[0]` is the prefix before the first slash. -/
def build_full_image_name (image_name : List Char) (registry : Option (List Char)) : List Char :=
  match registry with
  | none => image_name
  | some reg =>
    if reg.isEmpty then image_name
    else if image_name.contains '/' &&
        ((image_name.takeWhile (fun c => c ≠ '/')).contains '.'
          || (image_name.takeWhile (fun c => c ≠ '/')).contains ':') then
      image_name
    else if (parse_registry_url (some reg)).kind = RegistryKind.docker_hub then
      image_name
    else
      (parse_registry_url (some reg)).hostname ++ '/' :: image_name

/-! openapi_validator.py -/

/-- JSON-like values, the model of the loaded spec data (Python dicts,
lists, strings, numbers, booleans, None).  Objects are association lists;
Python dicts have distinct keys, and lookup takes the first match. -/
inductive Json where
  | null
  | bool (b : Bool)
  | num (n : Int)
  | str (s : String)
  | arr (xs : List Json)
  | obj (kvs : List (String × Json))

/-- First-match key lookup in an object, Python `d[k]` / `k in d`. -/
def lookupKey : List (String × Json) → String → Option Json
  | [], _ => none
  | (k, v) :: rest, key => if k = key then some v else lookupKey rest key

/-- Python `key in d`. -/
def hasKey (kvs : List (String × Json)) (key : String) : Bool :=
  (lookupKey kvs key).isSome

/-- Python `d.get(key, default)`. -/
def jsonGetD (kvs : List (String × Json)) (key : String) (d : Json) : Json :=
  (lookupKey kvs key).getD d

/-- Python truthiness of a JSON value: None, False, 0, empty string,
empty list and empty dict are falsy. -/
def jsonTruthy : Json → Bool
  | .null => false
  | .bool b => b
  | .num n => n ≠ 0
  | .str s => s ≠ ""
  | .arr xs => !xs.isEmpty
  | .obj kvs => !kvs.isEmpty

/-- Python `a or b` on optional JSON values (`d.get(k)` returns None when
the key is absent, and `or` picks the first truthy operand). -/
def pyOrJson (a b : Option Json) : Option Json :=
  match a with
  | some v => if jsonTruthy v then some v else b
  | none => b

/-- Number of keys of a JSON object, Python `len(d)`; 0 on non-objects. -/
def numKeys : Json → Nat
  | .obj kvs => kvs.length
  | _ => 0

/-- Is the value a Python dict? -/
def isObjJ : Json → Bool
  | .obj _ => true
  | _ => false

/-- The ValueError messages `validate_openapi_spec` can raise, one
constructor per `raise` site, in source order:
* `notAnObject` — "Specification must be a JSON object" (line 78)
* `missingVersionField` — "Missing (openapi) or (swagger) version field" (line 82)
* `missingRequiredFields fs` — "Missing required fields: " ++ comma-join fs (line 89)
* `infoNotAnObject` — "(info) field must be an object" (line 94)
* `missingInfoTitle` — "Missing required (info.title) field" (line 97)
* `missingInfoVersion` — "Missing required (info.version) field" (line 100)
* `pathsNotAnObject` — "(paths) field must be an object" (line 105) -/
inductive ValidationError where
  | notAnObject
  | missingVersionField
  | missingRequiredFields (fields : List String)
  | infoNotAnObject
  | missingInfoTitle
  | missingInfoVersion
  | pathsNotAnObject
deriving DecidableEq, Repr

/-- The success dictionary built by `validate_openapi_spec` (lines
110-117): `title` and `version` are `info.get(...)`, `spec_version` is
`spec.get(openapi) or spec.get(swagger)`, `paths_count` is `len(paths)`,
and the two flags are key-presence tests. -/
structure SpecValidationResult where
  title : Option Json
  version : Option Json
  spec_version : Option Json
  paths_count : Nat
  has_openapi : Bool
  has_swagger : Bool

/-- openapi_validator.validate_openapi_spec (lines 66-126), with `raise
ValueError` modelled as `Except.error`.  The checks run in source order
and the first failure is terminal. -/
def validate_openapi_spec (spec_data : Json) : Except ValidationError SpecValidationResult :=
  match spec_data with
  | .obj kvs =>
    if !hasKey kvs "openapi" && !hasKey kvs "swagger" then
      .error .missingVersionField
    else
      if !(["info", "paths"].filter (fun f => !hasKey kvs f)).isEmpty then
        .error (.missingRequiredFields (["info", "paths"].filter (fun f => !hasKey kvs f)))
      else
        match jsonGetD kvs "info" (.obj []) with
        | .obj infoKvs =>
          if !hasKey infoKvs "title" then .error .missingInfoTitle
          else if !hasKey infoKvs "version" then .error .missingInfoVersion
          else
            match jsonGetD kvs "paths" (.obj []) with
            | .obj pathKvs =>
              .ok { title := lookupKey infoKvs "title"
                    version := lookupKey infoKvs "version"
                    spec_version := pyOrJson (lookupKey kvs "openapi") (lookupKey kvs "swagger")
                    paths_count := pathKvs.length
                    has_openapi := hasKey kvs "openapi"
                    has_swagger := hasKey kvs "swagger" }
            | _ => .error .pathsNotAnObject
        | _ => .error .infoNotAnObject
  | _ => .error .notAnObject

/-! Theorems about container_pusher -/

/-- For a non-empty registry string every branch of `parse_registry_url`
echoes the input as `hostname`, and none of those branches is the Docker
Hub one. -/
theorem parse_hostname_eq (r : List Char) (hr : r ≠ []) :
    (parse_registry_url (some r)).hostname = r ∧
    (parse_registry_url (some r)).kind ≠ RegistryKind.docker_hub := by
  have hre : r.isEmpty = false := by
    cases r with
    | nil => exact absurd rfl hr
    | cons a as => rfl
  unfold parse_registry_url
  simp only [hre, Bool.false_eq_true, if_false]
  split
  · exact ⟨rfl, by simp⟩
  · split
    · exact ⟨rfl, by simp⟩
    · split
      · exact ⟨rfl, by simp⟩
      · split
        · exact ⟨rfl, by simp⟩
        · exact ⟨rfl, by simp⟩

/-- C8: classify(None) and classify("") return the same descriptor, with
kind DockerHub and hostname "docker.io". -/
theorem parse_registry_url_none_empty :
    parse_registry_url none = parse_registry_url (some []) ∧
    (parse_registry_url none).kind = RegistryKind.docker_hub ∧
    (parse_registry_url none).hostname = "docker.io".toList ∧
    (parse_registry_url none).account_id = none ∧
    (parse_registry_url none).region = none :=
  ⟨rfl, rfl, rfl, rfl, rfl⟩

/-- C9: with an absent (None) or empty registry, build_full_image_name
returns the image name unchanged, for every image name. -/
theorem build_full_image_name_no_registry (x : List Char) :
    build_full_image_name x none = x ∧ build_full_image_name x (some []) = x :=
  ⟨rfl, rfl⟩

/-- C7: when the image name contains a slash and the segment before the
first slash contains a dot or a colon, build_full_image_name returns the
image name unchanged for every registry argument. -/
theorem build_full_image_name_qualified_unchanged (image : List Char)
    (registry : Option (List Char))
    (h : (image.contains '/' &&
      ((image.takeWhile (fun c => c ≠ '/')).contains '.'
        || (image.takeWhile (fun c => c ≠ '/')).contains ':')) = true) :
    build_full_image_name image registry = image := by
  match registry with
  | none => rfl
  | some reg =>
    cases reg with
    | nil => rfl
    | cons a as =>
      unfold build_full_image_name
      dsimp only
      rw [if_neg (by simp), if_pos h]

/-- Witness for C7 at the example of the claim:
buildFullName("registry.com/app:latest", "other.com") returns the image
name unchanged. -/
theorem build_full_image_name_qualified_unchanged_witness :
    (("registry.com/app:latest".toList.contains '/' &&
      (("registry.com/app:latest".toList.takeWhile (fun c => c ≠ '/')).contains '.'
        || ("registry.com/app:latest".toList.takeWhile (fun c => c ≠ '/')).contains ':')) = true) ∧
    build_full_image_name "registry.com/app:latest".toList (some "other.com".toList)
      = "registry.com/app:latest".toList :=
  ⟨by decide, build_full_image_name_qualified_unchanged _ _ (by decide)⟩

/-- C1: for a non-empty registry and an image name that is not already
registry-qualified, build_full_image_name returns the classified
hostname, a slash, and the image name; the Docker Hub no-prefix branch is
unreachable for non-empty registries. -/
theorem build_full_image_name_prefixes_hostname (image reg : List Char)
    (hreg : reg ≠ [])
    (hq : (image.contains '/' &&
      ((image.takeWhile (fun c => c ≠ '/')).contains '.'
        || (image.takeWhile (fun c => c ≠ '/')).contains ':')) = false) :
    build_full_image_name image (some reg) =
      (parse_registry_url (some reg)).hostname ++ '/' :: image := by
  have hk := (parse_hostname_eq reg hreg).2
  cases reg with
  | nil => exact absurd rfl hreg
  | cons a as =>
    unfold build_full_image_name
    dsimp only
    rw [if_neg (by simp), if_neg (by rw [hq]; simp), if_neg hk]

/-- Witness for C1 at the example of the claim:
buildFullName("app", "docker.io") = "docker.io/app" even though the
target registry is Docker Hub. -/
theorem build_full_image_name_prefixes_hostname_witness :
    ("docker.io".toList ≠ ([] : List Char)) ∧
    build_full_image_name "app".toList (some "docker.io".toList) =
      (parse_registry_url (some "docker.io".toList)).hostname ++ '/' :: "app".toList ∧
    build_full_image_name "app".toList (some "docker.io".toList) = "docker.io/app".toList :=
  ⟨by decide, build_full_image_name_prefixes_hostname _ _ (by decide) (by decide), by decide⟩

/-- C6: the descriptor returned by parse_registry_url has account_id and
region populated exactly when its kind is AwsEcr. -/
theorem account_id_region_iff_aws_ecr (registry : Option (List Char)) :
    ((parse_registry_url registry).account_id.isSome = true ↔
      (parse_registry_url registry).kind = RegistryKind.aws_ecr) ∧
    ((parse_registry_url registry).region.isSome = true ↔
      (parse_registry_url registry).kind = RegistryKind.aws_ecr) := by
  unfold parse_registry_url
  split
  · simp
  · split
    · simp
    · split
      · simp
      · split
        · simp
        · split
          · simp
          · split <;> simp

/-- C2 counterexample: classification is NOT idempotent at the empty
registry: classify("") is the DockerHub descriptor with hostname
"docker.io", but classifying "docker.io" yields a Generic descriptor. -/
theorem classify_hostname_not_idempotent_on_empty :
    parse_registry_url (some ((parse_registry_url (some [])).hostname)) ≠
      parse_registry_url (some []) := by decide

/-- C2 amended: for every NON-empty registry string, classifying the
hostname of the returned descriptor yields an identical descriptor. -/
theorem classify_hostname_idempotent_nonempty (r : List Char) (hr : r ≠ []) :
    parse_registry_url (some ((parse_registry_url (some r)).hostname)) =
      parse_registry_url (some r) := by
  rw [(parse_hostname_eq r hr).1]

/-! Lemmas for the ECR hostname-shape claim (C3). -/

/-- Hostname of the shape the ECR regex describes:
`{n}.dkr.ecr.{r}.amazonaws.com`. -/
def ecrHost (n r : List Char) : List Char :=
  n ++ '.' :: 'd' :: 'k' :: 'r' :: '.' :: 'e' :: 'c' :: 'r' :: '.' ::
    (r ++ '.' :: 'a' :: 'm' :: 'a' :: 'z' :: 'o' :: 'n' :: 'a' :: 'w' :: 's' :: '.' :: 'c' :: 'o' :: 'm' :: [])

theorem takeWhile_append_all (p : Char → Bool) (xs : List Char) (y : Char)
    (ys : List Char) (hxs : ∀ x ∈ xs, p x = true) (hy : p y = false) :
    (xs ++ y :: ys).takeWhile p = xs := by
  induction xs with
  | nil => simp [List.takeWhile, hy]
  | cons a as ih =>
    have ha : p a = true := hxs a (List.mem_cons_self a as)
    have ih2 := ih (fun x hx => hxs x (List.mem_cons_of_mem a hx))
    simp [List.takeWhile, ha, ih2]

theorem dropWhile_append_all (p : Char → Bool) (xs : List Char) (y : Char)
    (ys : List Char) (hxs : ∀ x ∈ xs, p x = true) (hy : p y = false) :
    (xs ++ y :: ys).dropWhile p = y :: ys := by
  induction xs with
  | nil => simp [List.dropWhile, hy]
  | cons a as ih =>
    have ha : p a = true := hxs a (List.mem_cons_self a as)
    have ih2 := ih (fun x hx => hxs x (List.mem_cons_of_mem a hx))
    simp [List.dropWhile, ha, ih2]

theorem splitOnDot_append (xs rest : List Char) (hxs : ∀ x ∈ xs, x ≠ '.') :
    splitOnDot (xs ++ '.' :: rest) = xs :: splitOnDot rest := by
  induction xs with
  | nil => simp [splitOnDot]
  | cons a as ih =>
    have ha : a ≠ '.' := hxs a (List.mem_cons_self a as)
    have ih2 := ih (fun x hx => hxs x (List.mem_cons_of_mem a hx))
    simp [splitOnDot, ha, ih2]

theorem digit_ne_dot {c : Char} (h : isDigitC c = true) : c ≠ '.' := by
  intro he
  rw [he] at h
  exact absurd h (by decide)

theorem alnumHyphen_ne_dot {c : Char} (h : isAlnumHyphenC c = true) : c ≠ '.' := by
  intro he
  rw [he] at h
  exact absurd h (by decide)

theorem ne_nil_isEmpty_false {α : Type} (xs : List α) (h : xs ≠ []) :
    xs.isEmpty = false := by
  cases xs with
  | nil => exact absurd rfl h
  | cons a as => rfl

theorem ecrMatch_shape (n r : List Char) (hn : n ≠ [])
    (hnd : ∀ c ∈ n, isDigitC c = true) (hr : r ≠ [])
    (hra : ∀ c ∈ r, isAlnumHyphenC c = true) :
    ecrMatch (ecrHost n r) = true := by
  unfold ecrHost ecrMatch
  rw [takeWhile_append_all _ _ _ _ hnd (by decide),
      dropWhile_append_all _ _ _ _ hnd (by decide)]
  show (!n.isEmpty &&
    (!((r ++ '.' :: 'a' :: 'm' :: 'a' :: 'z' :: 'o' :: 'n' :: 'a' :: 'w' :: 's' :: '.' :: 'c' :: 'o' :: 'm' :: []).takeWhile isAlnumHyphenC).isEmpty
      && _)) = true
  rw [takeWhile_append_all _ _ _ _ hra (by decide),
      dropWhile_append_all _ _ _ _ hra (by decide),
      ne_nil_isEmpty_false n hn, ne_nil_isEmpty_false r hr]
  rfl

theorem splitOnDot_ecrHost (n r : List Char) (hnd : ∀ c ∈ n, c ≠ '.')
    (hrd : ∀ c ∈ r, c ≠ '.') :
    splitOnDot (ecrHost n r) =
      [n, ['d', 'k', 'r'], ['e', 'c', 'r'], r,
       ['a', 'm', 'a', 'z', 'o', 'n', 'a', 'w', 's'], ['c', 'o', 'm']] := by
  unfold ecrHost
  rw [splitOnDot_append n _ hnd]
  show n :: splitOnDot (['d', 'k', 'r'] ++ '.' ::
    ('e' :: 'c' :: 'r' :: '.' :: (r ++ '.' :: 'a' :: 'm' :: 'a' :: 'z' :: 'o' :: 'n' :: 'a' :: 'w' :: 's' :: '.' :: 'c' :: 'o' :: 'm' :: []))) = _
  rw [splitOnDot_append _ _ (by decide)]
  show _ :: _ :: splitOnDot (['e', 'c', 'r'] ++ '.' ::
    (r ++ '.' :: 'a' :: 'm' :: 'a' :: 'z' :: 'o' :: 'n' :: 'a' :: 'w' :: 's' :: '.' :: 'c' :: 'o' :: 'm' :: [])) = _
  rw [splitOnDot_append _ _ (by decide), splitOnDot_append r _ hrd]
  rfl

/-- C3: classifying a hostname of the exact ECR shape
`{n}.dkr.ecr.{r}.amazonaws.com` (with `n` a non-empty digit string and
`r` a non-empty token of ASCII letters, digits and hyphens) yields an
AwsEcr descriptor echoing the hostname, with accountId `n` and region
`r`; the region also equals the 4th dot-separated segment of the
hostname. -/
theorem parse_registry_url_ecr_shape (n r : List Char) (hn : n ≠ [])
    (hnd : ∀ c ∈ n, isDigitC c = true) (hr : r ≠ [])
    (hra : ∀ c ∈ r, isAlnumHyphenC c = true) :
    parse_registry_url (some (ecrHost n r)) =
      { kind := .aws_ecr, url := ecrHost n r, hostname := ecrHost n r,
        account_id := some n, region := some r } ∧
    (splitOnDot (ecrHost n r)).getD 3 [] = r := by
  have hsplit := splitOnDot_ecrHost n r
    (fun c hc => digit_ne_dot (hnd c hc))
    (fun c hc => alnumHyphen_ne_dot (hra c hc))
  have hmatch := ecrMatch_shape n r hn hnd hr hra
  have hne : (ecrHost n r).isEmpty = false := by
    cases n with
    | nil => exact absurd rfl hn
    | cons a as => rfl
  constructor
  · unfold parse_registry_url
    show (if (ecrHost n r).isEmpty = true then _ else _) = _
    rw [if_neg (by rw [hne]; simp), if_pos hmatch, hsplit]
    rfl
  · rw [hsplit]
    rfl

/-- Witness for C3 at the concrete hostname
123.dkr.ecr.us-east-1.amazonaws.com. -/
theorem parse_registry_url_ecr_shape_witness :
    parse_registry_url (some (ecrHost ['1', '2', '3'] ['u', 's', '-', 'e', 'a', 's', 't', '-', '1'])) =
      { kind := .aws_ecr,
        url := ecrHost ['1', '2', '3'] ['u', 's', '-', 'e', 'a', 's', 't', '-', '1'],
        hostname := ecrHost ['1', '2', '3'] ['u', 's', '-', 'e', 'a', 's', 't', '-', '1'],
        account_id := some ['1', '2', '3'],
        region := some ['u', 's', '-', 'e', 'a', 's', 't', '-', '1'] } ∧
    (splitOnDot (ecrHost ['1', '2', '3'] ['u', 's', '-', 'e', 'a', 's', 't', '-', '1'])).getD 3 []
      = ['u', 's', '-', 'e', 'a', 's', 't', '-', '1'] :=
  parse_registry_url_ecr_shape ['1', '2', '3'] ['u', 's', '-', 'e', 'a', 's', 't', '-', '1']
    (by decide) (by decide) (by decide) (by decide)

/-- Witness for the amended C2 at the concrete registry "example.com". -/
theorem classify_hostname_idempotent_nonempty_witness :
    ("example.com".toList ≠ ([] : List Char)) ∧
    parse_registry_url (some ((parse_registry_url (some "example.com".toList)).hostname)) =
      parse_registry_url (some "example.com".toList) :=
  ⟨by decide, classify_hostname_idempotent_nonempty _ (by decide)⟩

/-! Theorems about openapi_validator -/

/-- C4: the validation checks run in a fixed order and short-circuit:
top-level type, then version field, then the aggregated missing-required-
fields check (info before paths, both aggregated), then info type, then
info.title, then info.version.  Each conjunct pins one step of the order:
a document violating a later check as well fails with the earlier error;
in particular a document with only paths fails with the missing-version
error, and a document with openapi and paths but no info fails naming
exactly the field info. -/
theorem validate_openapi_spec_check_order :
    validate_openapi_spec (Json.obj [("paths", Json.obj [])])
      = .error .missingVersionField ∧
    validate_openapi_spec (Json.obj [("openapi", Json.str "3.0.0"), ("paths", Json.obj [])])
      = .error (.missingRequiredFields ["info"]) ∧
    validate_openapi_spec (Json.num 5) = .error .notAnObject ∧
    validate_openapi_spec (Json.obj []) = .error .missingVersionField ∧
    validate_openapi_spec (Json.obj [("openapi", Json.str "3.0.0"), ("info", Json.num 5)])
      = .error (.missingRequiredFields ["paths"]) ∧
    validate_openapi_spec (Json.obj [("openapi", Json.str "3.0.0"), ("info", Json.num 5), ("paths", Json.obj [])])
      = .error .infoNotAnObject ∧
    validate_openapi_spec (Json.obj [("openapi", Json.str "3.0.0"), ("info", Json.obj []), ("paths", Json.obj [])])
      = .error .missingInfoTitle ∧
    validate_openapi_spec (Json.obj [("openapi", Json.str "3.0.0"),
        ("info", Json.obj [("title", Json.str "T")]), ("paths", Json.obj [])])
      = .error .missingInfoVersion ∧
    validate_openapi_spec (Json.obj [("openapi", Json.str "3.0.0")])
      = .error (.missingRequiredFields ["info", "paths"]) :=
  ⟨rfl, rfl, rfl, rfl, rfl, rfl, rfl, rfl, rfl⟩

/-- A document the original C5 claim gets wrong: openapi is present but
its value is the empty string, which is falsy in Python. -/
def c5CexKvs : List (String × Json) :=
  [("openapi", Json.str ""),
   ("info", Json.obj [("title", Json.str "T"), ("version", Json.str "1")]),
   ("paths", Json.obj [])]

/-- The result the code actually returns on `c5CexKvs`. -/
def c5CexRes : SpecValidationResult :=
  { title := some (Json.str "T"), version := some (Json.str "1"),
    spec_version := none, paths_count := 0,
    has_openapi := true, has_swagger := false }

/-- C5 counterexample: on a passing document whose openapi value is the
falsy string "", the returned specVersionField is None, not the value of
the openapi key, because the source computes it with the truthiness-based
`spec_data.get(openapi) or spec_data.get(swagger)`. -/
theorem validate_spec_version_truthiness_cex :
    validate_openapi_spec (Json.obj c5CexKvs) = Except.ok c5CexRes ∧
    lookupKey c5CexKvs "openapi" = some (Json.str "") ∧
    c5CexRes.spec_version ≠ some (Json.str "") :=
  ⟨rfl, rfl, fun h => Option.noConfusion h⟩

/-- C5 amended: for every document that passes all validation checks, the
returned specVersionField is `get(openapi) or get(swagger)` under Python
truthiness (the openapi value if present and truthy, else the swagger
value if present, else None); pathsCount is the number of keys of the
paths mapping and the two flags reflect key presence. -/
theorem validate_success_fields (spec : Json) (kvs : List (String × Json))
    (res : SpecValidationResult) (hspec : spec = Json.obj kvs)
    (h : validate_openapi_spec spec = Except.ok res) :
    res.spec_version = pyOrJson (lookupKey kvs "openapi") (lookupKey kvs "swagger") ∧
    res.paths_count = numKeys (jsonGetD kvs "paths" (Json.obj [])) ∧
    res.has_openapi = hasKey kvs "openapi" ∧
    res.has_swagger = hasKey kvs "swagger" := by
  subst hspec
  have h2 : (if (!hasKey kvs "openapi" && !hasKey kvs "swagger") = true then _ else _)
      = Except.ok res := h
  split at h2
  · exact Except.noConfusion h2
  · split at h2
    · exact Except.noConfusion h2
    · split at h2
      · split at h2
        · exact Except.noConfusion h2
        · split at h2
          · exact Except.noConfusion h2
          · split at h2
            · rename_i pathKvs hpaths
              injection h2 with h3
              subst h3
              refine ⟨rfl, ?_, rfl, rfl⟩
              rw [hpaths]
              rfl
            · exact Except.noConfusion h2
      · exact Except.noConfusion h2

/-- Witness document for the amended C5, the concrete example of the
claim: openapi 3.0.0, info with title and version, and two paths. -/
def c5ExKvs : List (String × Json) :=
  [("openapi", Json.str "3.0.0"),
   ("info", Json.obj [("title", Json.str "T"), ("version", Json.str "1")]),
   ("paths", Json.obj [("/a", Json.obj [("get", Json.obj [])]),
                       ("/b", Json.obj [("get", Json.obj []), ("post", Json.obj [])])])]

/-- The result the code returns on `c5ExKvs`. -/
def c5ExRes : SpecValidationResult :=
  { title := some (Json.str "T"), version := some (Json.str "1"),
    spec_version := some (Json.str "3.0.0"), paths_count := 2,
    has_openapi := true, has_swagger := false }

/-- Witness for the amended C5 at the concrete example document, whose
pathsCount is 2. -/
theorem validate_success_fields_witness :
    (c5ExRes.spec_version = pyOrJson (lookupKey c5ExKvs "openapi") (lookupKey c5ExKvs "swagger") ∧
     c5ExRes.paths_count = numKeys (jsonGetD c5ExKvs "paths" (Json.obj [])) ∧
     c5ExRes.has_openapi = hasKey c5ExKvs "openapi" ∧
     c5ExRes.has_swagger = hasKey c5ExKvs "swagger") ∧
    c5ExRes.paths_count = 2 :=
  ⟨validate_success_fields (Json.obj c5ExKvs) c5ExKvs c5ExRes rfl rfl, rfl⟩

/-- C10: a document that passes every earlier check but whose paths value
is present and is not a mapping fails with the paths-must-be-an-object
error, a failure case the spec does not enumerate. -/
theorem validate_paths_not_object_error (kvs infoKvs : List (String × Json)) (pv : Json)
    (hver : (hasKey kvs "openapi" || hasKey kvs "swagger") = true)
    (hinfo : lookupKey kvs "info" = some (Json.obj infoKvs))
    (hpaths : lookupKey kvs "paths" = some pv)
    (htitle : hasKey infoKvs "title" = true)
    (hversion : hasKey infoKvs "version" = true)
    (hpv : isObjJ pv = false) :
    validate_openapi_spec (Json.obj kvs) = .error .pathsNotAnObject := by
  have hkinfo : hasKey kvs "info" = true := by rw [hasKey, hinfo]; rfl
  have hkpaths : hasKey kvs "paths" = true := by rw [hasKey, hpaths]; rfl
  have hgi : jsonGetD kvs "info" (Json.obj []) = Json.obj infoKvs := by
    rw [jsonGetD, hinfo]; rfl
  have hgp : jsonGetD kvs "paths" (Json.obj []) = pv := by
    rw [jsonGetD, hpaths]; rfl
  show (if (!hasKey kvs "openapi" && !hasKey kvs "swagger") = true then _ else _) = _
  rw [if_neg (fun hcon => by
    rw [Bool.and_eq_true, Bool.not_eq_true', Bool.not_eq_true'] at hcon
    rw [hcon.1, hcon.2] at hver
    exact absurd hver (by decide))]
  rw [show (["info", "paths"].filter (fun f => !hasKey kvs f)) = [] by
    simp [hkinfo, hkpaths]]
  rw [if_neg (by decide), hgi]
  show (if (!hasKey infoKvs "title") = true then _ else _) = _
  rw [if_neg (by rw [htitle]; decide), if_neg (by rw [hversion]; decide), hgp]
  cases pv with
  | null => rfl
  | bool b => rfl
  | num n => rfl
  | str s => rfl
  | arr xs => rfl
  | obj pkvs => exact absurd hpv (by simp [isObjJ])

/-- Witness for C10 at a concrete document whose paths value is the
number 5. -/
theorem validate_paths_not_object_error_witness :
    validate_openapi_spec (Json.obj
      [("openapi", Json.str "3.0.0"),
       ("info", Json.obj [("title", Json.str "T"), ("version", Json.str "1")]),
       ("paths", Json.num 5)]) = .error .pathsNotAnObject :=
  validate_paths_not_object_error
    [("openapi", Json.str "3.0.0"),
     ("info", Json.obj [("title", Json.str "T"), ("version", Json.str "1")]),
     ("paths", Json.num 5)]
    [("title", Json.str "T"), ("version", Json.str "1")] (Json.num 5)
    rfl rfl rfl rfl rfl rfl

end OpenApiMockBuild
